import Mathlib

/-!
# Verification of the investment-tracker calculation engine

Shallow embedding of the SIP (systematic investment plan) calculation core of
the investment-tracker repository:

* `src/utils/calculations.ts` — `calculateInstallmentsPaid`,
  `calculateExpectedValue`, `calculateTotalInvested`,
  `calculateInstallmentLockEndDate`, `isInstallmentLocked`,
  `calculateAvailableWithdrawal`;
* `src/components/PortfolioSummary.tsx` — `calculatePortfolioSummary`.

JavaScript `number` arithmetic is modelled by exact rationals (`ℚ`);
`Math.round` is modelled by `jsRound` (round half toward positive infinity,
the `Math.round` contract).

Calendar dates are modelled as a pair of an absolute month index
(`12 * year + (month - 1)`) and a 1-based day of month, ordered
lexicographically; ISO-string parsing/formatting round-trips are the identity
under this abstraction, and time-of-day is abstracted away (all dates in the
source are parsed at midnight).
-/

namespace InvestmentTracker

/-- A calendar date: `ym` is the absolute month index `12 * year + (month - 1)`
(so January 2024 has `ym = 2024 * 12 = 24288`), `day` is the 1-based day of
the month. -/
structure CalDate where
  ym : ℤ
  day : ℤ
deriving DecidableEq

/-- Strict calendar order (JavaScript `Date` comparison, restricted to
midnight instants): lexicographic on (month index, day). -/
def CalDate.lt (a b : CalDate) : Prop :=
  a.ym < b.ym ∨ (a.ym = b.ym ∧ a.day < b.day)

instance (a b : CalDate) : Decidable (CalDate.lt a b) := by
  unfold CalDate.lt
  infer_instance

/-- Non-strict calendar order. -/
def CalDate.le (a b : CalDate) : Prop :=
  CalDate.lt a b ∨ a = b

instance (a b : CalDate) : Decidable (CalDate.le a b) := by
  unfold CalDate.le
  infer_instance

/-- Gregorian leap-year rule. -/
def isLeapYear (y : ℤ) : Bool :=
  decide (y % 4 = 0 ∧ (y % 100 ≠ 0 ∨ y % 400 = 0))

/-- Number of days of the month with absolute month index `ym`
(month `ym % 12`: 0 = January, …, 11 = December, of year `ym / 12`,
Euclidean division). -/
def daysInMonth (ym : ℤ) : ℤ :=
  let m := ym % 12
  if m = 1 then (if isLeapYear (ym / 12) then 29 else 28)
  else if m = 3 ∨ m = 5 ∨ m = 8 ∨ m = 10 then 30
  else 31

/-- A well-formed calendar date: the day exists in its month. -/
def ValidDate (d : CalDate) : Prop :=
  1 ≤ d.day ∧ d.day ≤ daysInMonth d.ym

instance (d : CalDate) : Decidable (ValidDate d) := by
  unfold ValidDate
  infer_instance

/-- Modelled from the spec: the `addMonths` calendar primitive (the source
delegates it to the date-fns library, whose code is not part of this
repository). Spec §4.1: `addMonths(date, n) → date` preserving day-of-month
with clamping at month-end. -/
def addMonths (d : CalDate) (n : ℤ) : CalDate :=
  CalDate.mk (d.ym + n) (min d.day (daysInMonth (d.ym + n)))

/-- Modelled from the spec: the `monthsBetween` calendar primitive (the source
delegates it to the date-fns `differenceInMonths`, whose code is not part of
this repository). Spec §4.1: integer count of whole months from `fromD` to
`toD`, negative when `toD < fromD`; equivalently the greatest `n` with
`addMonths fromD n ≤ toD`. Closed form: the raw month-index difference,
minus one when the day-clamped anniversary inside the month of `toD` falls after
the day of `toD`. -/
def monthsBetween (fromD toD : CalDate) : ℤ :=
  if min fromD.day (daysInMonth toD.ym) ≤ toD.day then toD.ym - fromD.ym
  else toD.ym - fromD.ym - 1

/-- JavaScript `Math.round`: round to the nearest integer, halves toward
positive infinity. -/
def jsRound (x : ℚ) : ℤ :=
  ⌊x + 1 / 2⌋

/-- `Math.round(x * 100) / 100` — round to 2 decimal places. -/
def round2 (x : ℚ) : ℚ :=
  (jsRound (x * 100) : ℚ) / 100

/-- `calculateInstallmentsPaid` (src/utils/calculations.ts, lines 51–71).
The evaluation instant `now` (`new Date()` in the source) is threaded as an
explicit parameter. The end date for counting is the pause date when the plan
is paused with a pause date recorded (returning 0 at once if that pause date
precedes the start date), otherwise `now`; the count is
`max(0, differenceInMonths(endDate, start) + 1)`. -/
def calculateInstallmentsPaid (startDate : CalDate) (pauseDate : Option CalDate)
    (isPaused : Bool) (now : CalDate) : ℤ :=
  match isPaused, pauseDate with
  | true, some pd =>
      if CalDate.lt pd startDate then 0
      else max 0 (monthsBetween startDate pd + 1)
  | _, _ => max 0 (monthsBetween startDate now + 1)

/-- `calculateExpectedValue` (src/utils/calculations.ts, lines 114–130):
SIP future value `sip × ((1 + r)^n − 1) / r` with `r = annualReturn/100/12`,
0 when no installments, the simple sum when the rate is 0, and the result
rounded to 2 decimals otherwise. -/
def calculateExpectedValue (sipAmount annualReturn : ℚ) (installmentsPaid : ℕ) : ℚ :=
  if installmentsPaid = 0 then 0
  else
    let monthlyRate := annualReturn / 100 / 12
    if monthlyRate = 0 then sipAmount * installmentsPaid
    else round2 (sipAmount * (((1 + monthlyRate) ^ installmentsPaid - 1) / monthlyRate))

/-- `calculateTotalInvested` (src/utils/calculations.ts, lines 147–152). -/
def calculateTotalInvested (sipAmount : ℚ) (installmentsPaid : ℕ) : ℚ :=
  sipAmount * installmentsPaid

/-- `calculateInstallmentLockEndDate` (src/utils/calculations.ts,
lines 195–201): `null` when the lock period is not positive, otherwise the
installment date advanced by `Math.round(lockPeriodYears * 12)` months.
(The ISO-string formatting done by the source round-trips to the
same calendar date.) -/
def calculateInstallmentLockEndDate (installmentDate : CalDate)
    (lockPeriodYears : ℚ) : Option CalDate :=
  if lockPeriodYears ≤ 0 then none
  else some (addMonths installmentDate (jsRound (lockPeriodYears * 12)))

/-- `isInstallmentLocked` (src/utils/calculations.ts, lines 218–227):
`false` for a non-positive lock period or a missing lock end date, else
`today < lockEnd`. -/
def isInstallmentLocked (installmentDate : CalDate) (lockPeriodYears : ℚ)
    (now : CalDate) : Bool :=
  if lockPeriodYears ≤ 0 then false
  else
    match calculateInstallmentLockEndDate installmentDate lockPeriodYears with
    | none => false
    | some lockEnd => decide (CalDate.lt now lockEnd)

/-- One entry of the `installments` array built by
`calculateAvailableWithdrawal`. -/
structure InstallmentDetail where
  date : CalDate
  amount : ℚ
  expectedValue : ℚ
  isLocked : Bool
  lockEndDate : Option CalDate
deriving DecidableEq

/-- The record returned by `calculateAvailableWithdrawal`. -/
structure WithdrawalResult where
  availableAmount : ℚ
  lockedAmount : ℚ
  totalValue : ℚ
  installments : List InstallmentDetail
deriving DecidableEq

/-- The end date used inside the loop of `calculateAvailableWithdrawal`
(src/utils/calculations.ts, line 294):
`isPaused && pauseDate ? parseISO(pauseDate) : new Date()`. -/
def effectiveEndDate (pauseDate : Option CalDate) (isPaused : Bool) (now : CalDate) : CalDate :=
  match isPaused, pauseDate with
  | true, some pd => pd
  | _, _ => now

/-- `calculateAvailableWithdrawal` (src/utils/calculations.ts, lines 261–335).
The shortcut branch (no installments, or no lock period) returns everything
available with an empty per-installment list. Otherwise the per-installment
loop (a `for` over `0 … totalInstallments − 1`, rendered as a map over
`List.range` and a left fold for the two accumulators) values each
installment at `calculateExpectedValue(amount, annualReturn, 1) ×
(1 + r)^(monthsHeld − 1)` when it has been held a positive number of whole
months and at the raw `amount` otherwise, and classifies it with
`isInstallmentLocked`. -/
def calculateAvailableWithdrawal (startDate : CalDate) (amount annualReturn lockPeriodYears : ℚ)
    (pauseDate : Option CalDate) (isPaused : Bool) (now : CalDate) : WithdrawalResult :=
  let totalInstallments := calculateInstallmentsPaid startDate pauseDate isPaused now
  let totalValue := calculateExpectedValue amount annualReturn totalInstallments.toNat
  if totalInstallments = 0 ∨ lockPeriodYears ≤ 0 then
    WithdrawalResult.mk totalValue 0 totalValue []
  else
    let endDate := effectiveEndDate pauseDate isPaused now
    let details := (List.range totalInstallments.toNat).map (fun (i : ℕ) =>
      let installmentDate := addMonths startDate (i : ℤ)
      let monthsHeld := monthsBetween installmentDate endDate
      let installmentExpectedValue :=
        if 0 < monthsHeld then
          calculateExpectedValue amount annualReturn 1 *
            (1 + annualReturn / 100 / 12) ^ (monthsHeld - 1).toNat
        else amount
      InstallmentDetail.mk installmentDate amount installmentExpectedValue
        (isInstallmentLocked installmentDate lockPeriodYears now)
        (calculateInstallmentLockEndDate installmentDate lockPeriodYears))
    let sums := details.foldl (fun acc d =>
      if d.isLocked then (acc.1, acc.2 + d.expectedValue)
      else (acc.1 + d.expectedValue, acc.2)) ((0 : ℚ), (0 : ℚ))
    WithdrawalResult.mk (max 0 sums.1) (max 0 sums.2) totalValue details

/-- Lifecycle status of a SIP (migration 004_add_sip_status.sql:
`status` constrained to active, inactive or completed). -/
inductive SIPStatus where
  | active
  | inactive
  | completed
deriving DecidableEq

/-- A stored SIP row, restricted to the fields the portfolio summary and the
calculation engine consume. -/
structure SIP where
  start_date : CalDate
  amount : ℚ
  annual_return : ℚ
  status : SIPStatus
  pause_date : Option CalDate
  is_paused : Bool
deriving DecidableEq

/-- A stored withdrawal row, restricted to the field the portfolio summary
consumes. -/
structure WithdrawalRec where
  amount : ℚ
deriving DecidableEq

/-- The record returned by `calculatePortfolioSummary`. -/
structure PortfolioSummaryResult where
  total_invested : ℚ
  total_withdrawals : ℚ
  net_portfolio : ℚ
  expected_value : ℚ
  total_gain_loss : ℚ
deriving DecidableEq

/-- `calculatePortfolioSummary` (src/components/PortfolioSummary.tsx,
lines 13–40). It folds over every SIP returned by `getSIPs` (which applies no
status filter), calling `calculateInstallmentsPaid(sip.start_date)` with the
pause arguments left at their defaults (`undefined` pause date, `false`
paused flag); withdrawals are summed unconditionally. -/
def calculatePortfolioSummary (sips : List SIP) (withdrawals : List WithdrawalRec)
    (now : CalDate) : PortfolioSummaryResult :=
  let invs := sips.foldl (fun acc sip =>
    let installmentsPaid := (calculateInstallmentsPaid sip.start_date none false now).toNat
    (acc.1 + calculateTotalInvested sip.amount installmentsPaid,
     acc.2 + calculateExpectedValue sip.amount sip.annual_return installmentsPaid))
    ((0 : ℚ), (0 : ℚ))
  let totalWithdrawals := withdrawals.foldl (fun s w => s + w.amount) 0
  PortfolioSummaryResult.mk invs.1 totalWithdrawals (invs.1 - totalWithdrawals)
    invs.2 (invs.2 - invs.1)

/-! ## Helper lemmas -/

/-- `monthsBetween` is monotone in its second argument. -/
lemma monthsBetween_mono (s t1 t2 : CalDate) (h : CalDate.le t1 t2) :
    monthsBetween s t1 ≤ monthsBetween s t2 := by
  rcases h with h | rfl
  · rcases h with hlt | ⟨heq, hday⟩
    · unfold monthsBetween
      split_ifs <;> omega
    · have hdim : daysInMonth t1.ym = daysInMonth t2.ym := by rw [heq]
      unfold monthsBetween
      rw [hdim]
      split_ifs with h1 h2 h2 <;> omega
  · exact le_refl _

/-- When the target date precedes a valid source date, `monthsBetween` is at
most `-1`. -/
lemma monthsBetween_le_neg_one (s t : CalDate) (hv : ValidDate s)
    (h : CalDate.lt t s) : monthsBetween s t ≤ -1 := by
  obtain ⟨h1, h2⟩ := hv
  unfold monthsBetween
  rcases h with hlt | ⟨heq, hday⟩
  · split_ifs <;> omega
  · have hdim : daysInMonth t.ym = daysInMonth s.ym := by rw [heq]
    rw [hdim]
    have hm : min s.day (daysInMonth s.ym) = s.day := min_eq_left h2
    rw [hm]
    split_ifs <;> omega

/-! ## Claims -/

/-- Claim C3: for every startDate strictly after the evaluation instant, with
isPaused = false and no pauseDate, calculateInstallmentsPaid returns 0
(the negative month difference is clamped by the `max 0` guard). -/
theorem installmentsPaid_future_start_eq_zero (startDate now : CalDate)
    (hv : ValidDate startDate) (h : CalDate.lt now startDate) :
    calculateInstallmentsPaid startDate none false now = 0 := by
  have hmb := monthsBetween_le_neg_one startDate now hv h
  show max 0 (monthsBetween startDate now + 1) = 0
  omega

/-- Witness for C3 at startDate = 2024-12-01, now = 2024-07-01. -/
theorem installmentsPaid_future_start_eq_zero_witness :
    ValidDate (CalDate.mk 24299 1) ∧
      CalDate.lt (CalDate.mk 24294 1) (CalDate.mk 24299 1) ∧
      calculateInstallmentsPaid (CalDate.mk 24299 1) none false (CalDate.mk 24294 1) = 0 :=
  ⟨by decide, by decide,
    installmentsPaid_future_start_eq_zero (CalDate.mk 24299 1) (CalDate.mk 24294 1)
      (by decide) (by decide)⟩

/-- Claim C7: once paused with a recorded pause date, the installment count
does not depend on the evaluation instant: the paused branch either returns 0
or counts up to the pause date, never consulting `now`. -/
theorem installmentsPaid_paused_const_in_now (startDate pd now1 now2 : CalDate) :
    calculateInstallmentsPaid startDate (some pd) true now1 =
      calculateInstallmentsPaid startDate (some pd) true now2 := rfl

/-- Claim C8: with isPaused = false and no pauseDate, the installment count is
monotonically non-decreasing in the evaluation instant. -/
theorem installmentsPaid_monotone_in_now (startDate now1 now2 : CalDate)
    (h : CalDate.le now1 now2) :
    calculateInstallmentsPaid startDate none false now1 ≤
      calculateInstallmentsPaid startDate none false now2 := by
  have hmb := monthsBetween_mono startDate now1 now2 h
  show max 0 (monthsBetween startDate now1 + 1) ≤ max 0 (monthsBetween startDate now2 + 1)
  omega

/-- Witness for C8 at startDate = 2024-01-01, now1 = 2024-02-15,
now2 = 2024-07-01. -/
theorem installmentsPaid_monotone_in_now_witness :
    CalDate.le (CalDate.mk 24289 15) (CalDate.mk 24294 1) ∧
      calculateInstallmentsPaid (CalDate.mk 24288 1) none false (CalDate.mk 24289 15) ≤
        calculateInstallmentsPaid (CalDate.mk 24288 1) none false (CalDate.mk 24294 1) :=
  ⟨by decide,
    installmentsPaid_monotone_in_now (CalDate.mk 24288 1) (CalDate.mk 24289 15)
      (CalDate.mk 24294 1) (by decide)⟩

/-- Claim C5: at a zero annual rate the expected value collapses to the simple
sum monthlyAmount × n, so it coincides with calculateTotalInvested; and with
0 installments the expected value is 0 for every rate. -/
theorem expectedValue_zero_rate_eq_totalInvested (amt : ℚ) (n : ℕ) :
    calculateExpectedValue amt 0 n = calculateTotalInvested amt n ∧
      calculateExpectedValue amt 0 n = amt * n ∧
      ∀ rate : ℚ, calculateExpectedValue amt rate 0 = 0 := by
  refine ⟨?_, ?_, fun rate => by simp [calculateExpectedValue]⟩ <;>
    by_cases hn : n = 0 <;>
      simp [calculateExpectedValue, calculateTotalInvested, hn]

/-- The exact value of calculateExpectedValue at the spec scenario 1 inputs. -/
lemma expectedValue_concrete_value : calculateExpectedValue 5000 15 12 = 6430181 / 100 := by
  unfold calculateExpectedValue round2 jsRound
  norm_num

/-- Claim C4 counterexample: calculateExpectedValue 5000 15 12 is not within 1
of 64478 (it is 64301.81; the 64478 figure in the source docstring and spec
scenario is arithmetically wrong for the implemented formula). -/
theorem expectedValue_concrete_not_within_one_of_64478 :
    ¬ |calculateExpectedValue 5000 15 12 - 64478| ≤ 1 := by
  rw [expectedValue_concrete_value]
  norm_num [abs_le]

/-- Claim C4 (amended): for monthlyAmount = 5000, annualReturnRate = 15,
installments = 12, calculateExpectedValue returns exactly 64301.81, a value
within 1 of 64302. -/
theorem expectedValue_concrete_eq_64301_81 :
    calculateExpectedValue 5000 15 12 = 6430181 / 100 ∧
      |calculateExpectedValue 5000 15 12 - 64302| ≤ 1 :=
  ⟨expectedValue_concrete_value, by rw [expectedValue_concrete_value]; norm_num [abs_le]⟩

/-- Claim C6: calculateInstallmentLockEndDate is absent exactly when
lockDurationYears ≤ 0, and otherwise advances the installment date by
round(lockDurationYears × 12) calendar months; isInstallmentLocked is false
whenever the lock end date is absent, and otherwise true exactly when the
evaluation instant is strictly before the lock end date. -/
theorem lockEndDate_isLocked_spec (d : CalDate) (lock : ℚ) (now : CalDate) :
    (calculateInstallmentLockEndDate d lock = none ↔ lock ≤ 0) ∧
      (¬ lock ≤ 0 →
        calculateInstallmentLockEndDate d lock = some (addMonths d (jsRound (lock * 12)))) ∧
      (calculateInstallmentLockEndDate d lock = none →
        isInstallmentLocked d lock now = false) ∧
      (∀ e, calculateInstallmentLockEndDate d lock = some e →
        (isInstallmentLocked d lock now = true ↔ CalDate.lt now e)) := by
  by_cases hl : lock ≤ 0
  · simp [calculateInstallmentLockEndDate, isInstallmentLocked, hl]
  · simp [calculateInstallmentLockEndDate, isInstallmentLocked, hl]

/-- Witness for C6 at installmentDate = 2024-01-01, lock = 2 years: the lock
end date is the installment date advanced by 24 months. -/
theorem lockEndDate_isLocked_spec_witness :
    calculateInstallmentLockEndDate (CalDate.mk 24288 1) 2 =
      some (addMonths (CalDate.mk 24288 1) 24) := by
  rw [(lockEndDate_isLocked_spec (CalDate.mk 24288 1) 2 (CalDate.mk 24288 1)).2.1
    (by norm_num)]
  norm_num [jsRound]

/-- The installment count is never negative (the `max 0` guard / the paused
early return). -/
lemma calculateInstallmentsPaid_nonneg (s : CalDate) (p : Option CalDate)
    (b : Bool) (now : CalDate) : 0 ≤ calculateInstallmentsPaid s p b now := by
  cases b with
  | false =>
    cases p with
    | none => exact le_max_left 0 _
    | some pd => exact le_max_left 0 _
  | true =>
    cases p with
    | none => exact le_max_left 0 _
    | some pd =>
      show 0 ≤ if CalDate.lt pd s then 0 else max 0 (monthsBetween s pd + 1)
      split_ifs
      · exact le_refl 0
      · exact le_max_left 0 _

/-- Claim C9: the shortcut branch of calculateAvailableWithdrawal (zero
installments or non-positive lock period) returns an empty per-installment
list; with a positive lock period and at least one installment the list has
exactly one entry per installment, hence is non-empty. -/
theorem availableWithdrawal_installments_empty_iff_shortcut (startDate : CalDate)
    (amount annualReturn lockPeriodYears : ℚ) (pauseDate : Option CalDate)
    (isPaused : Bool) (now : CalDate) :
    (calculateInstallmentsPaid startDate pauseDate isPaused now = 0 ∨ lockPeriodYears ≤ 0 →
      (calculateAvailableWithdrawal startDate amount annualReturn lockPeriodYears pauseDate
        isPaused now).installments = []) ∧
      (0 < lockPeriodYears → calculateInstallmentsPaid startDate pauseDate isPaused now ≠ 0 →
        (calculateAvailableWithdrawal startDate amount annualReturn lockPeriodYears pauseDate
            isPaused now).installments.length =
          (calculateInstallmentsPaid startDate pauseDate isPaused now).toNat ∧
        (calculateAvailableWithdrawal startDate amount annualReturn lockPeriodYears pauseDate
          isPaused now).installments ≠ []) := by
  constructor
  · intro hc
    simp only [calculateAvailableWithdrawal]
    rw [if_pos hc]
  · intro hl hn
    have hc : ¬ (calculateInstallmentsPaid startDate pauseDate isPaused now = 0 ∨
        lockPeriodYears ≤ 0) := by
      push_neg
      exact ⟨hn, hl⟩
    have hpos : 0 < (calculateInstallmentsPaid startDate pauseDate isPaused now).toNat := by
      have hge := calculateInstallmentsPaid_nonneg startDate pauseDate isPaused now
      omega
    simp only [calculateAvailableWithdrawal]
    rw [if_neg hc]
    constructor
    · simp only [List.length_map, List.length_range]
    · intro hnil
      have hlen := congrArg List.length hnil
      simp only [List.length_map, List.length_range, List.length_nil] at hlen
      omega

/-- Witness for C9: a lock-free plan (lock = 0) with 3 accrued installments
still gets an empty list, and the same plan with a 1-year lock gets 3 entries. -/
theorem availableWithdrawal_installments_empty_iff_shortcut_witness :
    (calculateAvailableWithdrawal (CalDate.mk 24288 1) 5000 15 0 none false
        (CalDate.mk 24290 1)).installments = [] ∧
      (calculateAvailableWithdrawal (CalDate.mk 24288 1) 5000 15 1 none false
          (CalDate.mk 24290 1)).installments.length = 3 :=
  ⟨(availableWithdrawal_installments_empty_iff_shortcut (CalDate.mk 24288 1) 5000 15 0 none
      false (CalDate.mk 24290 1)).1 (Or.inr (by norm_num)),
    by
      have h := ((availableWithdrawal_installments_empty_iff_shortcut (CalDate.mk 24288 1)
        5000 15 1 none false (CalDate.mk 24290 1)).2 (by norm_num) (by decide)).1
      rw [h]
      decide⟩

/-- Claim C10: inside the per-installment loop, installment `i` is valued at
the raw contribution amount when it has been held zero or fewer whole months,
and at calculateExpectedValue(amount, rate, 1) × (1 + monthlyRate)^(monthsHeld − 1)
when it has been held monthsHeld > 0 months. -/
theorem availableWithdrawal_installment_value (startDate : CalDate)
    (amount annualReturn lockPeriodYears : ℚ) (pauseDate : Option CalDate)
    (isPaused : Bool) (now : CalDate) (i : ℕ)
    (hl : 0 < lockPeriodYears)
    (hi : i < (calculateInstallmentsPaid startDate pauseDate isPaused now).toNat) :
    ((calculateAvailableWithdrawal startDate amount annualReturn lockPeriodYears pauseDate
        isPaused now).installments.get? i).map InstallmentDetail.expectedValue =
      some (if 0 < monthsBetween (addMonths startDate (i : ℤ))
              (effectiveEndDate pauseDate isPaused now) then
          calculateExpectedValue amount annualReturn 1 *
            (1 + annualReturn / 100 / 12) ^
              (monthsBetween (addMonths startDate (i : ℤ))
                (effectiveEndDate pauseDate isPaused now) - 1).toNat
        else amount) := by
  have hc : ¬ (calculateInstallmentsPaid startDate pauseDate isPaused now = 0 ∨
      lockPeriodYears ≤ 0) := by
    push_neg
    refine ⟨?_, hl⟩
    intro h0
    rw [h0] at hi
    simp at hi
  simp only [calculateAvailableWithdrawal]
  rw [if_neg hc]
  simp only [List.get?_map, List.get?_range hi]
  rfl

/-- Witness for C10: at the C1 scenario, installment 0 (held 2 months) is
valued at 5000 × 1.0125 = 5062.5. -/
theorem availableWithdrawal_installment_value_witness :
    ((calculateAvailableWithdrawal (CalDate.mk 24288 1) 5000 15 1 none false
        (CalDate.mk 24290 1)).installments.get? 0).map InstallmentDetail.expectedValue =
      some (10125 / 2) := by
  rw [availableWithdrawal_installment_value (CalDate.mk 24288 1) 5000 15 1 none false
    (CalDate.mk 24290 1) 0 (by norm_num) (by decide)]
  norm_num [monthsBetween, addMonths, daysInMonth, isLeapYear, effectiveEndDate,
    calculateExpectedValue, round2, jsRound]

set_option maxHeartbeats 2000000 in
/-- Claim C1 (failing evaluation): at startDate = 2024-01-01, amount = 5000,
annualReturnRate = 15, lock = 1 year, unpaused, now = 2024-03-01, the code
returns availableAmount + lockedAmount = 15062.50 while totalValue = 15188.28:
the aggregation invariant available + locked = total is violated by 125.78,
far beyond the 0.01 tolerance. -/
theorem availableWithdrawal_sum_breaks_total_invariant :
    (calculateAvailableWithdrawal (CalDate.mk 24288 1) 5000 15 1 none false
          (CalDate.mk 24290 1)).availableAmount +
        (calculateAvailableWithdrawal (CalDate.mk 24288 1) 5000 15 1 none false
          (CalDate.mk 24290 1)).lockedAmount = 30125 / 2 ∧
      (calculateAvailableWithdrawal (CalDate.mk 24288 1) 5000 15 1 none false
        (CalDate.mk 24290 1)).totalValue = 379707 / 25 ∧
      ¬ |(calculateAvailableWithdrawal (CalDate.mk 24288 1) 5000 15 1 none false
            (CalDate.mk 24290 1)).availableAmount +
          (calculateAvailableWithdrawal (CalDate.mk 24288 1) 5000 15 1 none false
            (CalDate.mk 24290 1)).lockedAmount -
          (calculateAvailableWithdrawal (CalDate.mk 24288 1) 5000 15 1 none false
            (CalDate.mk 24290 1)).totalValue| ≤ 1 / 100 := by
  have h1 : calculateInstallmentsPaid (CalDate.mk 24288 1) none false (CalDate.mk 24290 1) = 3 := by
    decide
  have hr : List.range (Int.toNat 3) = [0, 1, 2] := rfl
  have hA : (calculateAvailableWithdrawal (CalDate.mk 24288 1) 5000 15 1 none false
      (CalDate.mk 24290 1)).availableAmount = 0 := by
    simp only [calculateAvailableWithdrawal, h1, hr]
    norm_num [monthsBetween, addMonths, daysInMonth, isLeapYear, effectiveEndDate,
      isInstallmentLocked, calculateInstallmentLockEndDate, jsRound, calculateExpectedValue,
      round2, CalDate.lt, List.foldl]
  have hL : (calculateAvailableWithdrawal (CalDate.mk 24288 1) 5000 15 1 none false
      (CalDate.mk 24290 1)).lockedAmount = 30125 / 2 := by
    simp only [calculateAvailableWithdrawal, h1, hr]
    norm_num [monthsBetween, addMonths, daysInMonth, isLeapYear, effectiveEndDate,
      isInstallmentLocked, calculateInstallmentLockEndDate, jsRound, calculateExpectedValue,
      round2, CalDate.lt, List.foldl]
  have hT : (calculateAvailableWithdrawal (CalDate.mk 24288 1) 5000 15 1 none false
      (CalDate.mk 24290 1)).totalValue = 379707 / 25 := by
    have ht : Int.toNat 3 = 3 := rfl
    simp only [calculateAvailableWithdrawal, h1, hr, ht]
    norm_num [monthsBetween, addMonths, daysInMonth, isLeapYear, effectiveEndDate,
      isInstallmentLocked, calculateInstallmentLockEndDate, jsRound, calculateExpectedValue,
      round2, CalDate.lt, List.foldl]
  refine ⟨by rw [hA, hL]; norm_num, hT, ?_⟩
  rw [hA, hL, hT]
  norm_num [abs_le]

/-- Claim C2 (failing evaluation): a portfolio whose only plan has status
inactive (amount 5000, rate 0, one accrued installment) still reports
total_invested = 5000 and expected_value = 5000: calculatePortfolioSummary
folds over every plan with no status filter. -/
theorem portfolioSummary_includes_inactive_plan :
    (SIP.mk (CalDate.mk 24288 1) 5000 0 SIPStatus.inactive none false).status =
        SIPStatus.inactive ∧
      (calculatePortfolioSummary
          [SIP.mk (CalDate.mk 24288 1) 5000 0 SIPStatus.inactive none false] []
          (CalDate.mk 24288 1)).total_invested = 5000 ∧
      (calculatePortfolioSummary
          [SIP.mk (CalDate.mk 24288 1) 5000 0 SIPStatus.inactive none false] []
          (CalDate.mk 24288 1)).expected_value = 5000 := by
  have h1 : calculateInstallmentsPaid (CalDate.mk 24288 1) none false (CalDate.mk 24288 1) = 1 := by
    decide
  refine ⟨rfl, ?_, ?_⟩ <;>
    · simp only [calculatePortfolioSummary, List.foldl_cons, List.foldl_nil, h1]
      norm_num [calculateTotalInvested, calculateExpectedValue]

end InvestmentTracker
